import Mathlib

/-!
# Verification of `rnaseek/miso.py`

A shallow embedding of the pure computational core of `rnaseek/miso.py`
(MISO splice-event identifier parsing, intron-interval construction,
isoform resolution, annotation-table aggregation, and the sashimi
plot-settings document builder), together with theorems settling the
frozen claims about the module.

Python strings are modelled as `List Char` (`StrL`); Python exceptions
are modelled with `Except PyError`.  Functions keep the names of the
Python functions they embed.
-/

set_option autoImplicit false

/-- Python strings are modelled as lists of characters. -/
abbrev StrL := List Char

deriving instance DecidableEq for Except

/-- The Python exceptions that the embedded code can raise:
`IndexError` (out-of-range indexing such as `exon[-1]` on an empty
string), `ValueError` (failing tuple unpacking or `int()` conversion)
and `UnboundLocalError`/`NameError` (reading a variable that no branch
assigned). -/
inductive PyError where
  | indexError
  | valueError
  | nameError
  deriving DecidableEq, Repr

/-- Python `s.split(sep)` for a one-character separator: splits at every
occurrence of `sep`, keeping empty segments; the result is never empty
(`"".split(sep) == ['']`). -/
def pysplit (sep : Char) : StrL → List StrL
  | [] => [[]]
  | c :: rest =>
    if c = sep then [] :: pysplit sep rest
    else
      match pysplit sep rest with
      | [] => [[c]]
      | t :: ts => (c :: t) :: ts

/-- Python `sep.join(xs)`. -/
def pyjoin (sep : StrL) : List StrL → StrL
  | [] => []
  | [x] => x
  | x :: xs => x ++ sep ++ pyjoin sep xs

/-- Python `x.split('|')[0]`: the first alternative of an
alternative-coordinate field (`split` never returns an empty list, so
the index is always in range). -/
def firstAlt (x : StrL) : StrL :=
  match pysplit '|' x with
  | t :: _ => t
  | [] => []

/-- Python `s[-1]` as an `Option` (`none` models the `IndexError` on an
empty string). -/
def pyLast : StrL → Option Char
  | [] => none
  | [c] => some c
  | _ :: rest => pyLast rest

/-- Python `x.split('.')[0]`, used to strip gene/transcript version
suffixes (`split` never returns an empty list). -/
def stripVer (x : StrL) : StrL :=
  match pysplit '.' x with
  | t :: _ => t
  | [] => []

/-- The numeric value of a decimal digit character, if it is one. -/
def digitVal (c : Char) : Option Nat :=
  if '0' ≤ c ∧ c ≤ '9' then some (c.toNat - '0'.toNat) else none

/-- Value of a nonempty all-digit character list, `none` otherwise. -/
def digitsValAux (acc : Nat) : List Char → Option Nat
  | [] => some acc
  | c :: rest =>
    match digitVal c with
    | some d => digitsValAux (acc * 10 + d) rest
    | none => none

/-- Value of a nonempty all-digit character list, `none` otherwise. -/
def digitsVal : List Char → Option Nat
  | [] => none
  | l => digitsValAux 0 l

/-- Python `int(s)` on a string: an optional sign followed by at least
one decimal digit; anything else raises `ValueError`. -/
def pyInt (s : StrL) : Except PyError Int :=
  match s with
  | '-' :: rest =>
    match digitsVal rest with
    | some n => .ok (-(n : Int))
    | none => .error PyError.valueError
  | '+' :: rest =>
    match digitsVal rest with
    | some n => .ok (n : Int)
    | none => .error PyError.valueError
  | _ =>
    match digitsVal s with
    | some n => .ok (n : Int)
    | none => .error PyError.valueError

/-- A Python loop that maps a fallible function over a list in order,
propagating the first exception (as Python `map` does for the list
comprehensions and loops in the source). -/
def mapExcept {α β : Type} (f : α → Except PyError β) : List α → Except PyError (List β)
  | [] => .ok []
  | x :: xs =>
    match f x with
    | .error e => .error e
    | .ok y =>
      match mapExcept f xs with
      | .error e => .error e
      | .ok ys => .ok (y :: ys)

/-!
## Identifier parser (`miso_exon_to_coords`, `miso_id_to_exon_ids`)
-/

/-- `SpliceAnnotator.miso_exon_to_coords` (miso.py lines 125-146):
pick the strand as the final character, take the first `|`-alternative
of every `:`-field, and if the second field is a `start-end` region
split it on the hyphen.  The returned coordinates are strings, exactly
as in the source (no numeric conversion or validation happens here). -/
def miso_exon_to_coords (exon : StrL) : Except PyError (StrL × StrL × StrL × Char) :=
  match pyLast exon with
  | none => .error PyError.indexError
  | some strand =>
    let coords := (pysplit ':' exon).map firstAlt
    match coords.get? 1 with
    | none => .error PyError.indexError
    | some c1 =>
      if '-' ∈ c1 then
        match pysplit '-' c1 with
        | [a, b] =>
          match coords.get? 0 with
          | some c0 => .ok (c0, a, b, strand)
          | none => .error PyError.indexError
        | _ => .error PyError.valueError
      else
        match coords.get? 0, coords.get? 2 with
        | some c0, some c2 => .ok (c0, c1, c2, strand)
        | _, _ => .error PyError.indexError

/-- `SpliceAnnotator.miso_exon_to_gencode_exon` (miso.py lines 81-97):
format the parsed coordinates as `exon:{}:{}-{}:{}`. -/
def miso_exon_to_gencode_exon (exon : StrL) : Except PyError StrL :=
  match miso_exon_to_coords exon with
  | .error e => .error e
  | .ok (c, a, b, st) =>
    .ok ("exon:".data ++ c ++ ':' :: (a ++ '-' :: (b ++ [':', st])))

/-- `SpliceAnnotator.miso_id_to_exon_ids` (miso.py lines 100-122):
split the event id on `@` and convert each exon field. -/
def miso_id_to_exon_ids (misoId : StrL) : Except PyError (List StrL) :=
  mapExcept miso_exon_to_gencode_exon (pysplit '@' misoId)

/-!
## Interval builder (`coords_to_intron_bedtool`)
-/

/-- One `(chrom, start, stop, strand)` tuple as produced by
`miso_exon_to_coords`: the coordinates are still strings, the strand a
single character. -/
abbrev ExonCoord := StrL × StrL × StrL × Char

/-- A `pybedtools.Interval` record as constructed in miso.py: chromosome,
0-based half-open start/stop, strand, the event id as name, and the
constant score `'1000'`. -/
structure BedInterval where
  chrom : StrL
  start : Int
  stop : Int
  strand : Char
  name : StrL
  score : StrL
  deriving DecidableEq, Repr

/-- The strand dispatch of `coords_to_intron_bedtool` (miso.py lines
217-222): the raw string bounds of the intron. -/
def intron_bounds (strand1 : Char) (start1 stop1 start2 stop2 : StrL) :
    Except PyError (StrL × StrL) :=
  if strand1 = '+' then .ok (stop1, start2)
  else if strand1 = '-' then .ok (stop2, start1)
  else .error PyError.nameError

/-- One iteration of the loop in
`SpliceAnnotator.coords_to_intron_bedtool` (miso.py lines 210-236):
slice the two flanking exons `exons[(intron_number-1):(intron_number+1)]`,
take the gap between them (`+` strand: upstream stop to downstream
start; `-` strand: downstream stop to upstream start), decrement the
start by one ("Base-0-ify"), and swap the bounds if start > stop.
A slice with fewer than two exons fails the tuple unpacking
(`ValueError`); a strand other than `+`/`-` leaves `start`/`stop`
unassigned (`UnboundLocalError`).  The slice model matches Python for
`intron_number ≥ 1`, which covers every call site
(`range(1, n_exons)`). -/
def intron_interval (intronNumber : Nat) (misoId : StrL) (exons : List ExonCoord) :
    Except PyError BedInterval :=
  match (exons.drop (intronNumber - 1)).take 2 with
  | [(chrom1, start1, stop1, strand1), (_, start2, stop2, _)] =>
    match intron_bounds strand1 start1 stop1 start2 stop2 with
    | .error e => .error e
    | .ok (startS, stopS) =>
      match pyInt startS with
      | .error e => .error e
      | .ok a =>
        match pyInt stopS with
        | .error e => .error e
        | .ok b =>
          let a := a - 1
          if a > b then
            .ok ⟨chrom1, b, a, strand1, misoId, "1000".data⟩
          else
            .ok ⟨chrom1, a, b, strand1, misoId, "1000".data⟩
  | _ => .error PyError.valueError

/-- `SpliceAnnotator.coords_to_intron_bedtool` (miso.py lines 181-238):
one intron interval per event, for the intron at position
`intronNumber` (events beyond the shorter of the two zipped lists are
dropped, as by Python `zip`). -/
def coords_to_intron_bedtool (misoIds : List StrL) (coords : List (List ExonCoord))
    (intronNumber : Nat) : Except PyError (List BedInterval) :=
  mapExcept (fun p => intron_interval intronNumber p.1 p.2) (misoIds.zip coords)

/-!
## Isoform resolver (`splice_type_isoforms`, `splice_type_exons`)
-/

/-- The string `'SE'` (skipped exon). -/
def strSE : StrL := "SE".data

/-- The string `'MXE'` (mutually exclusive exon). -/
def strMXE : StrL := "MXE".data

/-- `SpliceAnnotator.splice_type_isoforms` (miso.py lines 402-436):
the raw per-isoform transcript sets.  For `'SE'`,
`isoform1 = set(t[0]) & set(t[2])` and `isoform2 = set(t[1]) & isoform1`;
for `'MXE'`, `isoform1 = set(t[0]) & set(t[2]) & set(t[3])` and
`isoform2 = set(t[0]) & set(t[1]) & set(t[3])`; any other splice type
returns `(None, None)`.  Out-of-range positions raise `IndexError`. -/
def splice_type_isoforms {T : Type} [DecidableEq T] (spliceType : StrL)
    (transcripts : List (List T)) :
    Except PyError (Option (Finset T) × Option (Finset T)) :=
  if spliceType = strSE then
    match transcripts.get? 0, transcripts.get? 1, transcripts.get? 2 with
    | some t0, some t1, some t2 =>
      .ok (some (t0.toFinset ∩ t2.toFinset),
           some (t1.toFinset ∩ (t0.toFinset ∩ t2.toFinset)))
    | _, _, _ => .error PyError.indexError
  else if spliceType = strMXE then
    match transcripts.get? 0, transcripts.get? 1, transcripts.get? 2,
          transcripts.get? 3 with
    | some t0, some t1, some t2, some t3 =>
      .ok (some (t0.toFinset ∩ t2.toFinset ∩ t3.toFinset),
           some (t0.toFinset ∩ t1.toFinset ∩ t3.toFinset))
    | _, _, _, _ => .error PyError.indexError
  else
    .ok (none, none)

/-- `SpliceAnnotator.splice_type_exons` (miso.py lines 572-605): the
per-isoform exon/CDS tuples.  For `'SE'`, `isoform1 = exons[0], exons[2]`
and `isoform2 = exons[0], exons[1], exons[2]`; for `'MXE'`,
`isoform1 = exons[0], exons[1], exons[3]` and
`isoform2 = exons[0], exons[2], exons[3]`; any other splice type
returns `(None, None)`.  Out-of-range positions raise `IndexError`. -/
def splice_type_exons {T : Type} (spliceType : StrL) (exons : List T) :
    Except PyError (Option (List T) × Option (List T)) :=
  if spliceType = strSE then
    match exons.get? 0, exons.get? 1, exons.get? 2 with
    | some e0, some e1, some e2 => .ok (some [e0, e2], some [e0, e1, e2])
    | _, _, _ => .error PyError.indexError
  else if spliceType = strMXE then
    match exons.get? 0, exons.get? 1, exons.get? 2, exons.get? 3 with
    | some e0, some e1, some e2, some e3 =>
      .ok (some [e0, e1, e3], some [e0, e2, e3])
    | _, _, _, _ => .error PyError.indexError
  else
    .ok (none, none)

/-- The overlap-removal step of `SpliceAnnotator.isoform_translations`
(miso.py lines 523-528): remove the pairwise intersection from both
raw isoform transcript sets. -/
def remove_overlap {T : Type} [DecidableEq T] (iso1 iso2 : Finset T) :
    Finset T × Finset T :=
  let intersect := iso1 ∩ iso2
  (iso1 \ intersect, iso2 \ intersect)

/-!
## Annotation conversion (`convert_miso_ids_to_everything`)

The gffutils feature store is modelled as an abstract interface
(`GffDB`): a keyed lookup returning a `Feature` (whose relevant
attributes are the four lists read by the source) and the
transcript-overlap range query used as fallback.  The six
`miso_to_*` dictionaries and three `*_to_miso` defaultdicts are
modelled as insertion-ordered association lists; Python sets are
modelled as insertion-ordered duplicate-free lists (the claims settled
below do not depend on Python's unspecified set iteration order). -/

/-- Python `set.add` keeping insertion order. -/
def setAdd (s : List StrL) (x : StrL) : List StrL :=
  if x ∈ s then s else s ++ [x]

/-- Python `set.update` with a list argument, keeping insertion order. -/
def setUpdate (s : List StrL) (xs : List StrL) : List StrL :=
  xs.foldl setAdd s

/-- Python `d[k] = v` on a dict modelled as an insertion-ordered
association list: overwrite in place if the key exists, append
otherwise. -/
def dictSet {V : Type} (d : List (StrL × V)) (k : StrL) (v : V) : List (StrL × V) :=
  if d.any (fun p => p.1 = k) then
    d.map (fun p => if p.1 = k then (k, v) else p)
  else
    d ++ [(k, v)]

/-- Python `d[k].append(v)` on a `defaultdict(list)`. -/
def dictAppend (d : List (StrL × List StrL)) (k : StrL) (v : StrL) :
    List (StrL × List StrL) :=
  if d.any (fun p => p.1 = k) then
    d.map (fun p => if p.1 = k then (p.1, p.2 ++ [v]) else p)
  else
    d ++ [(k, [v])]

/-- Lookup in an association list (first matching key). -/
def alistFind {V : Type} (d : List (StrL × V)) (k : StrL) : Option V :=
  match d.find? (fun p => p.1 = k) with
  | some p => some p.2
  | none => none

/-- The attributes of a gffutils feature record that
`convert_miso_ids_to_everything` reads (`gene_id`, `gene_name`,
`gene_type`, `transcript_id`, each a list of strings). -/
structure Feature where
  gene_id : List StrL
  gene_name : List StrL
  gene_type : List StrL
  transcript_id : List StrL

/-- The slice of the gffutils database interface used by
`convert_miso_ids_to_everything`: keyed lookup `db[e]` (`none` models
`gffutils.FeatureNotFoundError`) and the fallback overlap query
`db.features_of_type('transcript', strand=strand, limit=(chrom, start, stop))`. -/
structure GffDB where
  lookup : StrL → Option Feature
  transcriptsIn : StrL → StrL → Int → Int → List Feature

/-- The six per-event accumulator sets of
`convert_miso_ids_to_everything` (miso.py lines 285-290). -/
structure AttrSets where
  gencode : List StrL := []
  ensembl : List StrL := []
  gene_name : List StrL := []
  gene_type : List StrL := []
  gencode_transcript : List StrL := []
  ensembl_transcript : List StrL := []
  deriving DecidableEq, Repr

/-- The empty accumulator (`set([])` six times). -/
def AttrSets.empty : AttrSets := {}

/-- Updating the six accumulator sets from one feature record
(miso.py lines 294-303 and 320-334; the version-stripped forms map
`x.split('.')[0]` over the identifier lists). -/
def updateFromFeature (s : AttrSets) (f : Feature) : AttrSets :=
  { gencode := setUpdate s.gencode f.gene_id
    ensembl := setUpdate s.ensembl (f.gene_id.map stripVer)
    gene_name := setUpdate s.gene_name f.gene_name
    gene_type := setUpdate s.gene_type f.gene_type
    gencode_transcript := setUpdate s.gencode_transcript f.transcript_id
    ensembl_transcript := setUpdate s.ensembl_transcript (f.transcript_id.map stripVer) }

/-- Processing of one exon id inside the per-event loop of
`convert_miso_ids_to_everything` (miso.py lines 291-336): look the exon
up; on `FeatureNotFoundError` re-parse the id as
`exon:chrom:start-stop:strand` and query overlapping transcripts,
skipping the exon silently (`continue`) when the id does not have that
shape, a bound is non-numeric, or no transcript overlaps — the bare
`except:` swallows every error of the fallback. -/
def convert_exon (db : GffDB) (s : AttrSets) (e : StrL) : AttrSets :=
  match db.lookup e with
  | some feat => updateFromFeature s feat
  | none =>
    match pysplit ':' e with
    | [_, chrom, startstop, strand] =>
      match pysplit '-' startstop with
      | [startS, stopS] =>
        match pyInt startS, pyInt stopS with
        | .ok a, .ok b =>
          let transcripts := db.transcriptsIn strand chrom a b
          if transcripts.isEmpty then s
          else transcripts.foldl updateFromFeature s
        | _, _ => s
      | _ => s
    | _ => s

/-- The nine output tables built by `convert_miso_ids_to_everything`
(miso.py lines 261-270): six event→attribute dicts (value `none`
models the `np.nan` recorded when no gene was found) and three
value→events defaultdicts. -/
structure ConvState where
  miso_to_ensembl : List (StrL × Option StrL) := []
  miso_to_gencode : List (StrL × Option StrL) := []
  miso_to_gene_name : List (StrL × Option StrL) := []
  miso_to_gene_type : List (StrL × Option StrL) := []
  miso_to_ensembl_transcript : List (StrL × Option StrL) := []
  miso_to_gencode_transcript : List (StrL × Option StrL) := []
  ensembl_to_miso : List (StrL × List StrL) := []
  gencode_to_miso : List (StrL × List StrL) := []
  gene_name_to_miso : List (StrL × List StrL) := []
  deriving DecidableEq, Repr

/-- The empty table state. -/
def ConvState.empty : ConvState := {}

/-- One iteration of the event loop of
`convert_miso_ids_to_everything` (miso.py lines 278-367): parse the
event id into exon ids, accumulate the six attribute sets over the
exons, and either (genes found) append the event to the three inverse
tables and record the comma-joined values in all six event→attribute
tables, or (no genes) record `np.nan` in the four gene-level tables
only. -/
def convert_event (db : GffDB) (st : ConvState) (misoId : StrL) :
    Except PyError ConvState :=
  match miso_id_to_exon_ids misoId with
  | .error e => .error e
  | .ok exons =>
    let s := exons.foldl (convert_exon db) AttrSets.empty
    if 0 < s.gencode.length then
      .ok { st with
        ensembl_to_miso := s.ensembl.foldl (fun d g => dictAppend d g misoId) st.ensembl_to_miso
        gene_name_to_miso := s.gene_name.foldl (fun d g => dictAppend d g misoId) st.gene_name_to_miso
        gencode_to_miso := s.gencode.foldl (fun d g => dictAppend d g misoId) st.gencode_to_miso
        miso_to_gencode := dictSet st.miso_to_gencode misoId (some (pyjoin [','] s.gencode))
        miso_to_ensembl := dictSet st.miso_to_ensembl misoId (some (pyjoin [','] s.ensembl))
        miso_to_gene_name := dictSet st.miso_to_gene_name misoId (some (pyjoin [','] s.gene_name))
        miso_to_gene_type := dictSet st.miso_to_gene_type misoId (some (pyjoin [','] s.gene_type))
        miso_to_gencode_transcript :=
          dictSet st.miso_to_gencode_transcript misoId (some (pyjoin [','] s.gencode_transcript))
        miso_to_ensembl_transcript :=
          dictSet st.miso_to_ensembl_transcript misoId (some (pyjoin [','] s.ensembl_transcript)) }
    else
      .ok { st with
        miso_to_gencode := dictSet st.miso_to_gencode misoId none
        miso_to_ensembl := dictSet st.miso_to_ensembl misoId none
        miso_to_gene_name := dictSet st.miso_to_gene_name misoId none
        miso_to_gene_type := dictSet st.miso_to_gene_type misoId none }

/-- A Python `for` loop threading a state through a fallible body,
propagating the first exception. -/
def foldExcept {σ α : Type} (f : σ → α → Except PyError σ) : σ → List α → Except PyError σ
  | s, [] => .ok s
  | s, x :: xs =>
    match f s x with
    | .error e => .error e
    | .ok s2 => foldExcept f s2 xs

/-- `SpliceAnnotator.convert_miso_ids_to_everything` (miso.py lines
240-393), modelled up to the in-memory tables: the per-event loop over
the given miso ids starting from empty tables.  The subsequent
file-writing pass and progress printing are side effects outside the
model. -/
def convert_miso_ids_to_everything (db : GffDB) (misoIds : List StrL) :
    Except PyError ConvState :=
  foldExcept (convert_event db) ConvState.empty misoIds

/-!
## Plot-settings writer (`write_sashimi_plot_settings`)
-/

/-- Python `str` of a bool (`True` / `False`). -/
def pyBool (b : Bool) : StrL :=
  if b then ("True".data) else ("False".data)

/-- Python `str` of a natural number. -/
def natStr (n : Nat) : StrL := Nat.toDigits 10 n

/-- Python `str(int(x))`. -/
def intStr : Int → StrL
  | .ofNat n => natStr n
  | .negSucc n => '-' :: natStr (n + 1)

/-- Python `'"{0}"'.format(x)`: the string wrapped in double quotes. -/
def quote_str (x : StrL) : StrL := '"' :: (x ++ ['"'])

/-- Python `'[{0}]'.format(',\n\t'.join(map(lambda x: '"{0}"'.format(x), xs)))`:
a bracketed, comma-newline-tab-separated list of quoted strings. -/
def bracket_quoted (xs : List StrL) : StrL :=
  '[' :: (pyjoin (",\n\t".data) (xs.map quote_str) ++ [']'])

/-- The `colors` field (miso.py lines 680-684): a full
`colors = [...]` line when a color list is given, the empty string for
`colors=None`. -/
def colors_field : Option (List StrL) → StrL
  | some colors => "colors = ".data ++ bracket_quoted colors
  | none => []

/-- The `sample_labels` field (miso.py lines 685-689), analogous to
`colors_field`. -/
def sample_labels_field : Option (List StrL) → StrL
  | some labels => "sample_labels = ".data ++ bracket_quoted labels
  | none => []

/-- The `coverages` field (miso.py line 757): bracketed,
comma-newline-tab-separated *unquoted* integers
`'[{0}]'.format(',\n\t'.join(map(lambda x: '{0}'.format(int(x)), mapped_reads)))`. -/
def coverages_field (mappedReads : List Int) : StrL :=
  '[' :: (pyjoin (",\n\t".data) (mappedReads.map intStr) ++ [']'])

/-- The parameters of `write_sashimi_plot_settings` (miso.py lines
610-624).  `bamDir`/`misoDir` embed the `bam_*`/`miso_*` directory
arguments; the purely numeric display parameters (and the
`bf_thresholds` tuple) are taken in their already-`str()`-rendered
form, since the claims do not concern Python's number formatting. -/
structure SashimiParams where
  bamDir : StrL
  misoDir : StrL
  bam_files : List StrL
  miso_files : List StrL
  mapped_reads : List Int
  colors : Option (List StrL)
  splice_type : StrL := strSE
  fig_width : StrL := "7".data
  fig_height : StrL := "5".data
  intron_scale : StrL := "1".data
  exon_scale : StrL := "1".data
  logged : Bool := false
  font_size : StrL := "6".data
  ymax : StrL := "150".data
  show_posteriors : Bool := true
  bar_posteriors : Bool := true
  number_junctions : Bool := true
  resolution : StrL := "0.5".data
  posterior_bins : StrL := "40".data
  genePostRat : StrL := "5".data
  bar_color : StrL := "#4c72b0".data
  bf_thresholds : StrL := "(0, 1, 2, 5, 10, 20)".data
  sample_labels : Option (List StrL) := none
  reverse_minus : Bool := false

/-- The sashimi settings template (miso.py lines 692-750) up to and
including the comment line that precedes the `colors` field
(placeholders 0-16 interpolated). -/
def sashimi_before_colors (p : SashimiParams) : StrL :=
  "\n[data]\n# directory where BAM files are\nbam_prefix = ".data ++ p.bamDir ++
  "\n# directory where MISO output is\nmiso_prefix = ".data ++ p.misoDir ++
  "\n\nbam_files = ".data ++ bracket_quoted p.bam_files ++
  "\nmiso_files = ".data ++
    bracket_quoted (p.miso_files.map (fun x => x ++ '/' :: p.splice_type)) ++
  "\n\n[plotting]\n# Dimensions of figure to be plotted (in inches)\nfig_width = ".data ++
    p.fig_width ++
  "\nfig_height = ".data ++ p.fig_height ++
  "\n# Factor to scale down introns and exons by\nintron_scale = ".data ++
    p.intron_scale ++
  "\nexon_scale = ".data ++ p.exon_scale ++
  "\n# Whether to use a log scale or not when plotting\nlogged = ".data ++
    pyBool p.logged ++
  "\nfont_size = ".data ++ p.font_size ++
  "\n\n# Max y-axis\nymax = ".data ++ p.ymax ++
  "\n\n# Whether to plot posterior distributions inferred by MISO\nshow_posteriors = ".data ++
    pyBool p.show_posteriors ++
  "\n\n# Whether to show posterior distributions as bar summaries\nbar_posteriors = ".data ++
    pyBool p.bar_posteriors ++
  "\n\n# Whether to plot the number of reads in each junction\nnumber_junctions = ".data ++
    pyBool p.number_junctions ++
  "\n\nresolution = ".data ++ p.resolution ++
  "\nposterior_bins = ".data ++ p.posterior_bins ++
  "\ngene_posterior_ratio = ".data ++ p.genePostRat ++
  "\n\n# List of colors for read denisites of each sample\n".data

/-- The sashimi settings template (miso.py lines 692-750) after the
`colors` field (placeholders 18-22 interpolated). -/
def sashimi_after_colors (p : SashimiParams) : StrL :=
  "\n\n# Number of mapped reads in each sample\n# (Used to normalize the read density for RPKM calculation)\ncoverages = ".data ++
    coverages_field p.mapped_reads ++
  "\n\n# Bar color for Bayes factor distribution\n# plots (--plot-bf-dist)\n# Paint them Seaborn \"deep\" palette blue\nbar_color = \"".data ++
    p.bar_color ++
  "\"\n\n# Bayes factors thresholds to use for --plot-bf-dist\nbf_thresholds = ".data ++
    p.bf_thresholds ++
  "\n\n# Renamed sample ids\n".data ++ sample_labels_field p.sample_labels ++
  "\n\n# Whether or not to reverse the minus strand events\nreverse_minus = ".data ++
    pyBool p.reverse_minus ++
  "\n\n".data

/-- `write_sashimi_plot_settings` (miso.py lines 610-761), modelled as
the text document written to `filename`: the fixed template with the
23 formatted parameter values interpolated, factored around the
`colors` field. -/
def write_sashimi_plot_settings (p : SashimiParams) : StrL :=
  sashimi_before_colors p ++ colors_field p.colors ++ sashimi_after_colors p

/-- A feature store that resolves nothing: every keyed lookup raises
`FeatureNotFoundError` and no transcript overlaps any region. -/
def dbEmpty : GffDB where
  lookup := fun _ => none
  transcriptsIn := fun _ _ _ _ => []

/-- A concrete parameter record for the C10 counterexample: two
mapped-read counts, default display parameters, `colors=None`. -/
def sashimiP0 : SashimiParams :=
  { bamDir := "bam".data
    misoDir := "miso".data
    bam_files := ["a.bam".data]
    miso_files := ["a".data]
    mapped_reads := [10, 20]
    colors := none }

example : pysplit ':' "a::b".data = ["a".data, [], "b".data] := by decide

example :
    convert_miso_ids_to_everything dbEmpty ["chr1:1:2:+".data] =
      .ok { miso_to_ensembl := [("chr1:1:2:+".data, none)]
            miso_to_gencode := [("chr1:1:2:+".data, none)]
            miso_to_gene_name := [("chr1:1:2:+".data, none)]
            miso_to_gene_type := [("chr1:1:2:+".data, none)] } := by decide

example :
    coverages_field [(10 : Int), 20] = "[10,\n\t20]".data := by decide

example :
    colors_field (some ["#111111".data, "#222222".data]) =
      "colors = [\"#111111\",\n\t\"#222222\"]".data := by decide

example :
    intron_interval 1 ("ev".data)
        [("chr1".data, "100".data, "200".data, '+'),
         ("chr1".data, "300".data, "400".data, '+'),
         ("chr1".data, "500".data, "600".data, '+')] =
      .ok ⟨"chr1".data, 199, 300, '+', "ev".data, "1000".data⟩ := by decide

example :
    splice_type_isoforms strSE [[1, 2], [1], [1, 2]] =
      .ok (some ({1, 2} : Finset ℕ), some {1}) := by decide

example :
    miso_exon_to_coords ("chr2:130914824:130914969:-".data) =
      .ok ("chr2".data, "130914824".data, "130914969".data, '-') := by decide

example :
    miso_exon_to_coords ("chr15:42565276:42565087|42565161:-".data) =
      .ok ("chr15".data, "42565276".data, "42565087".data, '-') := by decide

example :
    miso_exon_to_coords ("chr1:906066-906138:+".data) =
      .ok ("chr1".data, "906066".data, "906138".data, '+') := by decide

example :
    miso_id_to_exon_ids ("chr1:906066-906138:+@chr1:906259-906386:+".data) =
      .ok ["exon:chr1:906066-906138:+".data, "exon:chr1:906259-906386:+".data] := by
  decide

/-!
## Helper lemmas
-/

theorem pysplit_ne_nil (sep : Char) (l : StrL) : pysplit sep l ≠ [] := by
  cases l with
  | nil => simp [pysplit]
  | cons c rest =>
    by_cases hc : c = sep
    · simp [pysplit, hc]
    · simp only [pysplit, if_neg hc]
      cases pysplit sep rest <;> simp

theorem pysplit_sepFree (sep : Char) (l : StrL) (h : sep ∉ l) :
    pysplit sep l = [l] := by
  induction l with
  | nil => rfl
  | cons c rest ih =>
    have hc : ¬ c = sep := fun e => h (by simp [e])
    have hr : sep ∉ rest := fun m => h (List.mem_cons_of_mem _ m)
    simp [pysplit, hc, ih hr]

theorem pysplit_append (sep : Char) (a b : StrL) (h : sep ∉ a) :
    pysplit sep (a ++ sep :: b) = a :: pysplit sep b := by
  induction a with
  | nil => simp [pysplit]
  | cons c rest ih =>
    have hc : ¬ c = sep := fun e => h (by simp [e])
    have hr : sep ∉ rest := fun m => h (List.mem_cons_of_mem _ m)
    simp [pysplit, hc, ih hr]

theorem pyLast_concat (l : StrL) (a : Char) : pyLast (l ++ [a]) = some a := by
  induction l with
  | nil => rfl
  | cons c rest ih =>
    cases rest with
    | nil => rfl
    | cons d t => simpa [pyLast] using ih

theorem mapExcept_ok_mem {α β : Type} (f : α → Except PyError β) (xs : List α)
    (ys : List β) (y : β) (h : mapExcept f xs = .ok ys) (hy : y ∈ ys) :
    ∃ x, x ∈ xs ∧ f x = .ok y := by
  induction xs generalizing ys with
  | nil =>
    simp only [mapExcept, Except.ok.injEq] at h
    subst h
    simp at hy
  | cons x xs ih =>
    simp only [mapExcept] at h
    cases hfx : f x with
    | error e => rw [hfx] at h; cases h
    | ok y1 =>
      rw [hfx] at h
      cases hm : mapExcept f xs with
      | error e => rw [hm] at h; cases h
      | ok ys1 =>
        rw [hm] at h
        injection h with h
        subst h
        rcases List.mem_cons.mp hy with hy | hy
        · exact ⟨x, by simp, by rw [hfx, hy]⟩
        · obtain ⟨x2, hx2, hfx2⟩ := ih ys1 hm hy
          exact ⟨x2, by simp [hx2], hfx2⟩

theorem mapExcept_all_ok {α β : Type} (f : α → Except PyError β) (xs : List α)
    (h : ∀ x ∈ xs, ∃ y, f x = .ok y) :
    ∃ ys, mapExcept f xs = .ok ys ∧ ys.length = xs.length := by
  induction xs with
  | nil => exact ⟨[], rfl, rfl⟩
  | cons x xs ih =>
    obtain ⟨y, hy⟩ := h x (by simp)
    obtain ⟨ys, hys, hlen⟩ := ih (fun z hz => h z (by simp [hz]))
    exact ⟨y :: ys, by simp [mapExcept, hy, hys], by simp [hlen]⟩

theorem intron_interval_le (n : Nat) (misoId : StrL) (exons : List ExonCoord)
    (iv : BedInterval) (h : intron_interval n misoId exons = .ok iv) :
    iv.start ≤ iv.stop := by
  unfold intron_interval at h
  split at h
  · split at h
    · cases h
    · split at h
      · cases h
      · split at h
        · cases h
        · simp only [] at h
          split at h
          · injection h with h
            subst h
            simp only []
            omega
          · injection h with h
            subst h
            simp only []
            omega
  · cases h

/-!
## Claim theorems
-/

/-- C1: evaluating `splice_type_exons` at the failing input.  For
splice type `'MXE'` the code returns
`isoform1 = (exons[0], exons[1], exons[3])` and
`isoform2 = (exons[0], exons[2], exons[3])` — the two tuples are the
claimed (and docstring-documented) ones *swapped*: the claim (like the
function's own docstring and the transcript-level resolver
`splice_type_isoforms`) puts the far exon `exon3` into isoform 1.  The
`'SE'` behaviour matches the claim. -/
theorem C1_splice_type_exons_mxe_eval :
    splice_type_exons strMXE ["e1".data, "e2".data, "e3".data, "e4".data] =
      .ok (some ["e1".data, "e2".data, "e4".data],
           some ["e1".data, "e3".data, "e4".data]) ∧
    splice_type_exons strSE ["e1".data, "e2".data, "e3".data] =
      .ok (some ["e1".data, "e3".data],
           some ["e1".data, "e2".data, "e3".data]) ∧
    (["e1".data, "e2".data, "e4".data] : List StrL) ≠
      ["e1".data, "e3".data, "e4".data] := by
  refine ⟨by decide, by decide, by decide⟩

/-- C2: evaluating the intron interval builder at the claimed input.
For `'+'`-strand exons `(100, 200)` followed by `(300, 400)` the code
emits the interval `[199, 300)`, not the claimed (and
docstring-expected) `[200, 300)`: the "Base-0-ify" step decrements the
upstream exon's 1-based end, which is already the 0-based first
position of the intron. -/
theorem C2_intron_off_by_one_eval :
    coords_to_intron_bedtool ["ev".data]
        [[("chr1".data, "100".data, "200".data, '+'),
          ("chr1".data, "300".data, "400".data, '+')]] 1 =
      .ok [⟨"chr1".data, 199, 300, '+', "ev".data, "1000".data⟩] ∧
    (199 : Int) ≠ 200 := by
  refine ⟨by decide, by decide⟩

/-- C3: `splice_type_isoforms` is a pure function of the splice type
and the ordered candidate lists; for `'SE'` it returns
`(p1 ∩ p3, p2 ∩ (p1 ∩ p3))` and for `'MXE'` it returns
`(p1 ∩ p3 ∩ p4, p1 ∩ p2 ∩ p4)`, for every input family of candidate
sets. -/
theorem C3_splice_type_isoforms_pure {T : Type} [DecidableEq T]
    (l0 l1 l2 l3 : List T) :
    splice_type_isoforms strSE [l0, l1, l2] =
      .ok (some (l0.toFinset ∩ l2.toFinset),
           some (l1.toFinset ∩ (l0.toFinset ∩ l2.toFinset))) ∧
    splice_type_isoforms strMXE [l0, l1, l2, l3] =
      .ok (some (l0.toFinset ∩ l2.toFinset ∩ l3.toFinset),
           some (l0.toFinset ∩ l1.toFinset ∩ l3.toFinset)) := by
  constructor <;> rfl

/-- C6: whenever the transcript-level resolver produces two raw
isoform sets, removing their pairwise intersection from each (as
`isoform_translations` does) leaves two disjoint sets. -/
theorem C6_isoforms_disjoint {T : Type} [DecidableEq T] (spliceType : StrL)
    (transcripts : List (List T)) (iso1 iso2 : Finset T)
    (h : splice_type_isoforms spliceType transcripts = .ok (some iso1, some iso2)) :
    (remove_overlap iso1 iso2).1 ∩ (remove_overlap iso1 iso2).2 = ∅ := by
  simp only [remove_overlap]
  ext x
  simp only [Finset.mem_inter, Finset.mem_sdiff, Finset.mem_inter,
    Finset.not_mem_empty, iff_false]
  tauto

/-- C6 witness: a concrete skipped-exon instantiation. -/
theorem C6_isoforms_disjoint_witness :
    (remove_overlap ({1, 2} : Finset ℕ) {1}).1 ∩
      (remove_overlap ({1, 2} : Finset ℕ) {1}).2 = ∅ :=
  C6_isoforms_disjoint strSE [[1, 2], [1], [1, 2]] {1, 2} {1} (by decide)

/-- C8: for splice type `'SE'` the transcript-level resolver always
returns `isoform2 ⊆ isoform1`, so after the pairwise-intersection
removal performed in `isoform_translations` the transcript set of
isoform 2 is always empty. -/
theorem C8_se_isoform2_empty {T : Type} [DecidableEq T]
    (l0 l1 l2 : List T) (iso1 iso2 : Finset T)
    (h : splice_type_isoforms strSE [l0, l1, l2] = .ok (some iso1, some iso2)) :
    iso2 ⊆ iso1 ∧ (remove_overlap iso1 iso2).2 = ∅ := by
  have hAB : (Except.ok (some (l0.toFinset ∩ l2.toFinset),
      some (l1.toFinset ∩ (l0.toFinset ∩ l2.toFinset))) :
      Except PyError (Option (Finset T) × Option (Finset T))) =
      .ok (some iso1, some iso2) := h
  simp only [Except.ok.injEq, Prod.mk.injEq, Option.some.injEq] at hAB
  obtain ⟨h1, h2⟩ := hAB
  subst h1
  subst h2
  have hsub : l1.toFinset ∩ (l0.toFinset ∩ l2.toFinset) ⊆
      l0.toFinset ∩ l2.toFinset := Finset.inter_subset_right
  refine ⟨hsub, ?_⟩
  simp only [remove_overlap]
  rw [Finset.inter_eq_right.mpr hsub]
  exact Finset.sdiff_self _

/-- C8 witness: a concrete skipped-exon instantiation. -/
theorem C8_se_isoform2_empty_witness :
    ({3} : Finset ℕ) ⊆ {3, 4} ∧ (remove_overlap ({3, 4} : Finset ℕ) {3}).2 = ∅ := by
  have h := C8_se_isoform2_empty [3, 4] [3] [3, 4] {3, 4} {3} (by decide)
  exact h

/-- C9: every interval emitted by the intron interval builder
satisfies `start ≤ stop` — whenever the computed 0-based start exceeds
the computed stop the two bounds are swapped before the interval is
constructed, for every input coordinate list and intron position. -/
theorem C9_intron_start_le_stop (misoIds : List StrL)
    (coords : List (List ExonCoord)) (n : Nat) (ivs : List BedInterval)
    (h : coords_to_intron_bedtool misoIds coords n = .ok ivs) :
    ∀ iv ∈ ivs, iv.start ≤ iv.stop := by
  intro iv hiv
  obtain ⟨p, _, hp⟩ := mapExcept_ok_mem _ _ _ _ h hiv
  exact intron_interval_le n p.1 p.2 iv hp

/-- C9 witness: the minus-strand example from the builder's docstring
(`(500, 600)` then `(300, 400)` on `-`) yields the interval
`[399, 500)`, whose bounds are ordered. -/
theorem C9_intron_start_le_stop_witness :
    (⟨"chr2".data, 399, 500, '-', "ev".data, "1000".data⟩ : BedInterval).start ≤
      (⟨"chr2".data, 399, 500, '-', "ev".data, "1000".data⟩ : BedInterval).stop :=
  C9_intron_start_le_stop ["ev".data]
    [[("chr2".data, "500".data, "600".data, '-'),
      ("chr2".data, "300".data, "400".data, '-')]] 1
    [⟨"chr2".data, 399, 500, '-', "ev".data, "1000".data⟩] (by decide)
    ⟨"chr2".data, 399, 500, '-', "ev".data, "1000".data⟩ (by decide)

/-- C4 counterexample: running the conversion on one event that
resolves zero genes (against a feature store that resolves nothing),
the event is recorded with the missing value in the `gencode_gene`
table but has *no* row at all in the `gencode_transcript`
event→attribute table — so it is not recorded in *every*
event→attribute output table. -/
theorem C4_transcript_row_missing_counterexample :
    (convert_miso_ids_to_everything dbEmpty ["chr1:1:2:+".data]).toOption.map
        (fun st =>
          (alistFind st.miso_to_gencode ("chr1:1:2:+".data),
           alistFind st.miso_to_gencode_transcript ("chr1:1:2:+".data),
           alistFind st.miso_to_ensembl_transcript ("chr1:1:2:+".data))) =
      some (some none, none, none) := by
  decide

/-- C4 amended: for every event whose exons yield an empty gene set,
the per-event step of `convert_miso_ids_to_everything` records the
missing value (`np.nan`) for the event in the four gene-level
event→attribute tables (`gencode_gene`, `ensembl_gene`, `gene_name`,
`gene_type`), leaves the two transcript event→attribute tables
untouched (the event's row is omitted there), and leaves all three
inverse value→events tables unchanged, so the event appears in none of
them. -/
theorem C4_no_gene_event_tables (db : GffDB) (st : ConvState) (misoId : StrL)
    (exons : List StrL)
    (hparse : miso_id_to_exon_ids misoId = .ok exons)
    (hempty : (exons.foldl (convert_exon db) AttrSets.empty).gencode = []) :
    ∃ st2, convert_event db st misoId = .ok st2 ∧
      st2.miso_to_gencode = dictSet st.miso_to_gencode misoId none ∧
      st2.miso_to_ensembl = dictSet st.miso_to_ensembl misoId none ∧
      st2.miso_to_gene_name = dictSet st.miso_to_gene_name misoId none ∧
      st2.miso_to_gene_type = dictSet st.miso_to_gene_type misoId none ∧
      st2.miso_to_gencode_transcript = st.miso_to_gencode_transcript ∧
      st2.miso_to_ensembl_transcript = st.miso_to_ensembl_transcript ∧
      st2.ensembl_to_miso = st.ensembl_to_miso ∧
      st2.gencode_to_miso = st.gencode_to_miso ∧
      st2.gene_name_to_miso = st.gene_name_to_miso := by
  have h : convert_event db st misoId = .ok { st with
      miso_to_gencode := dictSet st.miso_to_gencode misoId none
      miso_to_ensembl := dictSet st.miso_to_ensembl misoId none
      miso_to_gene_name := dictSet st.miso_to_gene_name misoId none
      miso_to_gene_type := dictSet st.miso_to_gene_type misoId none } := by
    unfold convert_event
    rw [hparse]
    simp only [hempty, List.length_nil, lt_self_iff_false, if_false]
  exact ⟨_, h, rfl, rfl, rfl, rfl, rfl, rfl, rfl, rfl, rfl⟩

/-- C4 witness: the amended statement at the concrete no-gene event. -/
theorem C4_no_gene_event_tables_witness :
    ∃ st2, convert_event dbEmpty ConvState.empty ("chr1:1:2:+".data) = .ok st2 ∧
      st2.miso_to_gencode =
        dictSet ConvState.empty.miso_to_gencode ("chr1:1:2:+".data) none ∧
      st2.miso_to_ensembl =
        dictSet ConvState.empty.miso_to_ensembl ("chr1:1:2:+".data) none ∧
      st2.miso_to_gene_name =
        dictSet ConvState.empty.miso_to_gene_name ("chr1:1:2:+".data) none ∧
      st2.miso_to_gene_type =
        dictSet ConvState.empty.miso_to_gene_type ("chr1:1:2:+".data) none ∧
      st2.miso_to_gencode_transcript = ConvState.empty.miso_to_gencode_transcript ∧
      st2.miso_to_ensembl_transcript = ConvState.empty.miso_to_ensembl_transcript ∧
      st2.ensembl_to_miso = ConvState.empty.ensembl_to_miso ∧
      st2.gencode_to_miso = ConvState.empty.gencode_to_miso ∧
      st2.gene_name_to_miso = ConvState.empty.gene_name_to_miso :=
  C4_no_gene_event_tables dbEmpty ConvState.empty ("chr1:1:2:+".data)
    ["exon:chr1:1-2:+".data] (by decide) (by decide)

/-- C5 counterexample: the parser performs neither the field-count nor
the numeric validation asserted by the claim (no `MalformedIdentifier`
exists anywhere in the module).  An exon field with non-numeric
coordinates parses successfully, and an event id with only two exon
fields — fewer than the three a skipped-exon event requires — is
converted without any error. -/
theorem C5_no_validation_counterexample :
    miso_exon_to_coords ("chr1:abc:def:+".data) =
      .ok ("chr1".data, "abc".data, "def".data, '+') ∧
    miso_id_to_exon_ids ("chr1:100:200:+@chr1:300:400:+".data) =
      .ok ["exon:chr1:100-200:+".data, "exon:chr1:300-400:+".data] := by
  refine ⟨by decide, by decide⟩

/-- C5 amended: parsing a MISO event id never fails on a field count
that disagrees with the declared splice type and never fails on
non-numeric coordinates (it performs no such validation and defines no
`MalformedIdentifier`): for every identifier all of whose `@`-fields
individually parse, `miso_id_to_exon_ids` succeeds — purely, with no
side effects — and returns exactly one exon id per field, whatever the
number of fields. -/
theorem C5_parser_no_validation_amended (misoId : StrL)
    (h : ∀ f ∈ pysplit '@' misoId, (miso_exon_to_coords f).toOption.isSome = true) :
    ∃ l, miso_id_to_exon_ids misoId = .ok l ∧
      l.length = (pysplit '@' misoId).length := by
  apply mapExcept_all_ok
  intro f hf
  have hok := h f hf
  cases hc : miso_exon_to_coords f with
  | error e => rw [hc] at hok; simp [Except.toOption] at hok
  | ok v =>
    obtain ⟨c, a, b, st⟩ := v
    exact ⟨"exon:".data ++ c ++ ':' :: (a ++ '-' :: (b ++ [':', st])),
      by simp [miso_exon_to_gencode_exon, hc]⟩

/-- C5 witness: the amended statement at a two-field identifier with
non-numeric coordinates. -/
theorem C5_parser_no_validation_witness :
    ∃ l, miso_id_to_exon_ids ("chr1:abc:def:+@chr1:1:2:+".data) = .ok l ∧
      l.length = (pysplit '@' ("chr1:abc:def:+@chr1:1:2:+".data)).length :=
  C5_parser_no_validation_amended ("chr1:abc:def:+@chr1:1:2:+".data) (by decide)

/-- C7: the three parsing rules of `miso_exon_to_coords` and the
claimed concrete instance.
(1) Whenever parsing succeeds, the returned strand is the final
character of the field.
(2) For a four-part field `f0:f1:f2:s` whose parts contain no further
`:` and whose resolved second coordinate contains no hyphen, the
parser returns the first `|`-alternative of each coordinate part.
(3) For a three-part field `f0:f1:s` whose resolved second part is a
hyphenated region `u-v`, the parser splits it on the hyphen.
(4) In particular `chr2:9624561:9624679|9624700:+` parses to
start 9624561 and end 9624679 (the first alternative), not 9624700. -/
theorem C7_parser_field_rules :
    (∀ (exon c a b : StrL) (st : Char),
        miso_exon_to_coords exon = .ok (c, a, b, st) → pyLast exon = some st) ∧
    (∀ (f0 f1 f2 : StrL) (st : Char),
        ':' ∉ f0 → ':' ∉ f1 → ':' ∉ f2 → ¬ st = ':' → '-' ∉ firstAlt f1 →
        miso_exon_to_coords (f0 ++ ':' :: (f1 ++ ':' :: (f2 ++ [':', st]))) =
          .ok (firstAlt f0, firstAlt f1, firstAlt f2, st)) ∧
    (∀ (f0 f1 u v : StrL) (st : Char),
        ':' ∉ f0 → ':' ∉ f1 → ¬ st = ':' →
        firstAlt f1 = u ++ '-' :: v → '-' ∉ u → '-' ∉ v →
        miso_exon_to_coords (f0 ++ ':' :: (f1 ++ [':', st])) =
          .ok (firstAlt f0, u, v, st)) ∧
    miso_exon_to_coords ("chr2:9624561:9624679|9624700:+".data) =
      .ok ("chr2".data, "9624561".data, "9624679".data, '+') := by
  refine ⟨?_, ?_, ?_, by decide⟩
  · intro exon c a b st h
    unfold miso_exon_to_coords at h
    cases hl : pyLast exon with
    | none => rw [hl] at h; cases h
    | some s2 =>
      rw [hl] at h
      simp only [] at h
      split at h
      · cases h
      · split at h
        · split at h
          · split at h
            · simp only [Except.ok.injEq, Prod.mk.injEq] at h
              obtain ⟨-, -, -, h4⟩ := h
              rw [h4]
            · cases h
          · cases h
        · split at h
          · simp only [Except.ok.injEq, Prod.mk.injEq] at h
            obtain ⟨-, -, -, h4⟩ := h
            rw [h4]
          · cases h
  · intro f0 f1 f2 st h0 h1 h2 hst hdash
    have hstm : (':' : Char) ∉ [st] := by
      simp only [List.mem_singleton]
      intro e
      exact hst e.symm
    have hassoc : f0 ++ ':' :: (f1 ++ ':' :: (f2 ++ [':', st])) =
        (f0 ++ ':' :: (f1 ++ ':' :: (f2 ++ [':']))) ++ [st] := by
      simp [List.append_assoc]
    have hlast : pyLast (f0 ++ ':' :: (f1 ++ ':' :: (f2 ++ [':', st]))) = some st := by
      rw [hassoc]
      exact pyLast_concat _ _
    have hsplit : pysplit ':' (f0 ++ ':' :: (f1 ++ ':' :: (f2 ++ [':', st]))) =
        [f0, f1, f2, [st]] := by
      rw [pysplit_append ':' f0 _ h0, pysplit_append ':' f1 _ h1,
          pysplit_append ':' f2 _ h2, pysplit_sepFree ':' [st] hstm]
    simp [miso_exon_to_coords, hlast, hsplit, hdash]
  · intro f0 f1 u v st h0 h1 hst heq hu hv
    have hstm : (':' : Char) ∉ [st] := by
      simp only [List.mem_singleton]
      intro e
      exact hst e.symm
    have hassoc : f0 ++ ':' :: (f1 ++ [':', st]) =
        (f0 ++ ':' :: (f1 ++ [':'])) ++ [st] := by
      simp [List.append_assoc]
    have hlast : pyLast (f0 ++ ':' :: (f1 ++ [':', st])) = some st := by
      rw [hassoc]
      exact pyLast_concat _ _
    have hsplit : pysplit ':' (f0 ++ ':' :: (f1 ++ [':', st])) =
        [f0, f1, [st]] := by
      rw [pysplit_append ':' f0 _ h0, pysplit_append ':' f1 _ h1,
          pysplit_sepFree ':' [st] hstm]
    have hmem : '-' ∈ firstAlt f1 := by
      rw [heq]
      simp
    have hps : pysplit '-' (firstAlt f1) = [u, v] := by
      rw [heq, pysplit_append '-' u v hu, pysplit_sepFree '-' v hv]
    simp [miso_exon_to_coords, hlast, hsplit, hmem, hps]

/-- C7 witness: the two general rules applied at concrete fields (an
alternative-coordinate field and a hyphenated retained-intron field). -/
theorem C7_parser_field_rules_witness :
    miso_exon_to_coords
        ("chr1".data ++ ':' :: ("10".data ++ ':' :: ("20|30".data ++ [':', '+']))) =
      .ok (firstAlt ("chr1".data), firstAlt ("10".data),
           firstAlt ("20|30".data), '+') ∧
    miso_exon_to_coords ("chr1".data ++ ':' :: ("100-200".data ++ [':', '+'])) =
      .ok (firstAlt ("chr1".data), "100".data, "200".data, '+') :=
  ⟨C7_parser_field_rules.2.1 ("chr1".data) ("10".data) ("20|30".data) '+'
      (by decide) (by decide) (by decide) (by decide) (by decide),
   C7_parser_field_rules.2.2.1 ("chr1".data) ("100-200".data) ("100".data)
      ("200".data) '+'
      (by decide) (by decide) (by decide) (by decide) (by decide) (by decide)⟩

set_option maxRecDepth 2048 in
/-- C10 counterexample: the `coverages` field is a list-valued field of
the emitted document, yet it is rendered as bracketed
comma-newline-tab-separated *unquoted* integers — it contains no quote
character at all — so the claim that each list-valued field is
rendered as a sequence of quoted strings fails on the code.  The third
conjunct exhibits the unquoted rendering inside the emitted document. -/
theorem C10_unquoted_coverages_counterexample :
    coverages_field [(10 : Int), 20] = "[10,\n\t20]".data ∧
    '"' ∉ coverages_field [(10 : Int), 20] ∧
    List.IsInfix
      ("\n\n# Number of mapped reads in each sample\n# (Used to normalize the read density for RPKM calculation)\ncoverages = ".data ++
        coverages_field [(10 : Int), 20])
      (write_sashimi_plot_settings sashimiP0) := by
  refine ⟨by decide, by decide,
    ⟨sashimi_before_colors sashimiP0,
     "\n\n# Bar color for Bayes factor distribution\n# plots (--plot-bf-dist)\n# Paint them Seaborn \"deep\" palette blue\nbar_color = \"".data ++
       "#4c72b0".data ++
       "\"\n\n# Bayes factors thresholds to use for --plot-bf-dist\nbf_thresholds = ".data ++
       "(0, 1, 2, 5, 10, 20)".data ++
       "\n\n# Renamed sample ids\n".data ++
       "\n\n# Whether or not to reverse the minus strand events\nreverse_minus = ".data ++
       "False".data ++
       "\n\n".data, ?_⟩⟩
  simp [write_sashimi_plot_settings, sashimi_after_colors, sashimiP0,
    colors_field, sample_labels_field, pyBool, List.append_assoc]

/-- C10 amended: the emitted document always consists of the fixed
template text around the `colors` field; with `colors=None` that field
is the empty string (an empty line between the colors comment and the
following blank line), and with a two-element color list it is a
`colors = [...]` line holding exactly the two quoted colors joined by
a comma, newline and tab.  The bam, miso, colors and sample-label list
fields are rendered as bracketed comma-newline-tab-separated quoted
strings (`bracket_quoted`), while the `coverages` field renders
unquoted integers and `bf_thresholds` a plain tuple. -/
theorem C10_colors_field_amended (p : SashimiParams) (c1 c2 : StrL) :
    colors_field none = [] ∧
    colors_field (some [c1, c2]) =
      "colors = ".data ++ '[' :: (quote_str c1 ++ ",\n\t".data ++
        (quote_str c2 ++ [']'])) ∧
    bracket_quoted [c1, c2] =
      '[' :: (quote_str c1 ++ ",\n\t".data ++ (quote_str c2 ++ [']'])) ∧
    write_sashimi_plot_settings p =
      sashimi_before_colors p ++ colors_field p.colors ++ sashimi_after_colors p := by
  refine ⟨rfl, ?_, ?_, rfl⟩
  · simp [colors_field, bracket_quoted, pyjoin, List.append_assoc]
  · simp [bracket_quoted, pyjoin, List.append_assoc]
